import Mathlib

/-!
Verification of the webhook-triggered product-description enrichment pipeline.

The development shallowly embeds the event handler of the repository
(the Express `post` controller, its commented-in primary variant and the
self-contained alternate variant), the Vision result-to-ImageData
transformation `getImageData`, and the commercetools repository function
`updateProductDescription`.  External collaborators (Vision AI, Vertex AI,
commercetools) are modelled as explicit fallible functions; the handler
additionally returns the ordered list of collaborator invocations so that
claims about which collaborator ran, with which arguments, are statable.
-/

namespace Image2Description

/-- A JSON-like attribute value (the TS source types attribute values as `any`). -/
inductive JsValue where
  | str (s : String)
  | boolVal (b : Bool)
  | num (n : Int)
  | nullVal
deriving DecidableEq, Repr

/-- Mirrors `ProductAttribute` (`{ name: string, value: any }`). -/
structure ProductAttribute where
  name : String
  value : JsValue
deriving DecidableEq, Repr

/-- Mirrors the `ImageData` interface produced by the Vision AI collaborator. -/
structure ImageData where
  labels : String
  objects : String
  colors : List String
  detectedText : String
  webEntities : String
deriving DecidableEq, Repr

/-- A commercetools product representation: the fields the pipeline reads or writes. -/
structure Product where
  id : String
  version : Nat
  description : List (String × String)
deriving DecidableEq, Repr

/-- Mirrors `ClientResponse` of the commercetools SDK: the handler only reads `.body`. -/
structure ClientResponse where
  body : Product
deriving DecidableEq, Repr

/-- A thrown JS value: either an `Error` instance carrying a message, or any other value. -/
inductive JsError where
  | error (msg : String)
  | nonError
deriving DecidableEq, Repr

/-- The three external collaborators of the pipeline, named as in the source imports. -/
structure Collaborators where
  productAnalysis : String → Except JsError ImageData
  generateProductDescription : ImageData → Except JsError String
  updateProductDescription : String → String → Except JsError ClientResponse

/-- One collaborator invocation, recording the stage and its exact arguments. -/
inductive Call where
  | analyze (imageUrl : String)
  | generate (imageData : ImageData)
  | persist (productId : String) (description : String)
deriving DecidableEq, Repr

/-- The fields of the parsed JSON event that the handler reads, each optional because
the source reads them through optional chaining (`jsonData.resource?.typeId`,
`jsonData.productProjection?.id`,
`jsonData.productProjection?.masterVariant?.images?.[0]?.url`,
`jsonData.productProjection?.masterVariant?.attributes`). -/
structure JsonData where
  resourceTypeId : Option String
  productId : Option String
  imageUrl : Option String
  attributes : Option (List ProductAttribute)
deriving DecidableEq, Repr

/-- Mirrors the Pub/Sub message object: `data` is an optional base64 string. -/
structure PubSubMessage where
  data : Option String
deriving DecidableEq, Repr

/-- Mirrors `request.body`: the Pub/Sub envelope with an optional `message` field. -/
structure RequestBody where
  message : Option PubSubMessage
deriving DecidableEq, Repr

/-- The JSON bodies the handler can send, one constructor per object shape. -/
inductive ResponseBody where
  | errorOnly (error : String)
  | errorWithDetails (error : String) (details : String)
  | skip (message : String) (productId : String) (imageUrl : String)
  | enriched (productId : String) (imageUrl : String) (description : String)
      (productAnalysis : ImageData) (commerceToolsUpdate : Product)
  | enrichedAlt (productId : String) (imageUrl : String) (description : String)
      (imageAnalysis : ImageData) (commerceToolsUpdate : Product)
deriving DecidableEq, Repr

/-- An HTTP response: status code plus JSON body. -/
structure HttpResponse where
  status : Nat
  body : ResponseBody
deriving DecidableEq, Repr

/-- JS truthiness of an optional string (`undefined` and the empty string are falsy). -/
def truthy : Option String → Bool
  | some s => s != ""
  | none => false

/-- The JS `String.prototype.trim`: drop whitespace from both ends. -/
def jsTrim (s : String) : String :=
  String.mk (((s.data.dropWhile Char.isWhitespace).reverse.dropWhile Char.isWhitespace).reverse)

/-- Mirrors `pubSubMessage.data ? Buffer.from(pubSubMessage.data, "base64").toString().trim() : undefined`:
an absent or empty (falsy) `data` yields `undefined`, otherwise the decoded, trimmed text.
Base64 decoding itself is an external parameter `decode`. -/
def decodeData (decode : String → String) : Option String → Option String
  | some d => if d = "" then none else some (jsTrim (decode d))
  | none => none

/-- The catch block of the primary handler: an `Error` maps to a 500 with the fixed
message and `details` set to the message of the error; any other thrown value maps
to a 500 with only the generic message. -/
def catchError : JsError → HttpResponse
  | .error msg => ⟨500, .errorWithDetails "❌ Internal server error. Failed to process request." msg⟩
  | .nonError => ⟨500, .errorOnly "❌ Unexpected error occurred."⟩

/-- Mirrors the flag extraction of the primary handler:
`(attributes || []).find(attr => attr.name === "generateDescription")?.value`. -/
def genDescriptionValueOf (attrsOpt : Option (List ProductAttribute)) : Option JsValue :=
  ((attrsOpt.getD []).find? (fun attr => attr.name == "generateDescription")).map
    (fun attr => attr.value)

/-- The three sequential awaited stages of the primary handler, with the call trace.
A stage that throws stops the chain at the catch block; on success the 200 body
carries `productId`, `imageUrl`, `description`, `productAnalysis` and
`commerceToolsUpdate = updateResponse.body`. -/
def runEnrichment (c : Collaborators) (productId imageUrl : String) :
    HttpResponse × List Call :=
  match c.productAnalysis imageUrl with
  | .error e => (catchError e, [Call.analyze imageUrl])
  | .ok imageData =>
    match c.generateProductDescription imageData with
    | .error e => (catchError e, [Call.analyze imageUrl, Call.generate imageData])
    | .ok description =>
      match c.updateProductDescription productId description with
      | .error e => (catchError e,
          [Call.analyze imageUrl, Call.generate imageData, Call.persist productId description])
      | .ok updateResponse =>
        (⟨200, .enriched productId imageUrl description imageData updateResponse.body⟩,
          [Call.analyze imageUrl, Call.generate imageData, Call.persist productId description])

/-- The primary handler after `JSON.parse` succeeded.  The `resource.typeId`
comparison of the source only guards two logger calls, so it has no observable
effect here.  When `productId` or `imageUrl` is falsy the source builds no
response at all: the `if` block is skipped and control falls out of the `try`,
modelled as `(none, [])`. -/
def processJsonData (c : Collaborators) (jsonData : JsonData) :
    Option HttpResponse × List Call :=
  if truthy jsonData.productId && truthy jsonData.imageUrl then
    let productId := jsonData.productId.getD ""
    let imageUrl := jsonData.imageUrl.getD ""
    if genDescriptionValueOf jsonData.attributes ≠ some (JsValue.str "true") then
      (some ⟨200, .skip "❌ The option for automatic description generation is not enabled."
          productId imageUrl⟩, [])
    else
      (some (runEnrichment c productId imageUrl).1, (runEnrichment c productId imageUrl).2)
  else
    (none, [])

/-- The primary `post` handler (event controller).  `parseJson` stands for
`JSON.parse` (failing with the message of the thrown `SyntaxError`), `decodeBase64`
for the Buffer base64 decode.  An absent `message` makes `pubSubMessage.data`
throw a `TypeError`, which the catch block converts to a 500. -/
def post (c : Collaborators) (parseJson : String → Except String JsonData)
    (decodeBase64 : String → String) (body : RequestBody) :
    Option HttpResponse × List Call :=
  match body.message with
  | none =>
    (some (catchError (JsError.error "Cannot read properties of undefined (reading \x27data\x27)")), [])
  | some pubSubMessage =>
    match decodeData decodeBase64 pubSubMessage.data with
    | none => (some ⟨400, .errorOnly "❌ No data found in Pub/Sub message."⟩, [])
    | some decodedData =>
      if decodedData = "" then
        (some ⟨400, .errorOnly "❌ No data found in Pub/Sub message."⟩, [])
      else
        match parseJson decodedData with
        | .error e => (some (catchError (JsError.error e)), [])
        | .ok jsonData => processJsonData c jsonData

/-- Flag extraction of the alternate handler, which scans for `gen-description`. -/
def genDescriptionValueOfVariant (attrsOpt : Option (List ProductAttribute)) : Option JsValue :=
  ((attrsOpt.getD []).find? (fun attr => attr.name == "gen-description")).map
    (fun attr => attr.value)

/-- The catch block of the alternate handler. -/
def catchErrorVariant : JsError → HttpResponse
  | .error msg => ⟨500, .errorWithDetails "Internal server error. Failed to process request." msg⟩
  | .nonError => ⟨500, .errorWithDetails "Internal server error." "Unknown error occurred"⟩

/-- The three sequential stages of the alternate handler (success body key is
`imageAnalysis` instead of `productAnalysis`). -/
def runEnrichmentVariant (c : Collaborators) (productId imageUrl : String) :
    HttpResponse × List Call :=
  match c.productAnalysis imageUrl with
  | .error e => (catchErrorVariant e, [Call.analyze imageUrl])
  | .ok imageData =>
    match c.generateProductDescription imageData with
    | .error e => (catchErrorVariant e, [Call.analyze imageUrl, Call.generate imageData])
    | .ok description =>
      match c.updateProductDescription productId description with
      | .error e => (catchErrorVariant e,
          [Call.analyze imageUrl, Call.generate imageData, Call.persist productId description])
      | .ok updateResponse =>
        (⟨200, .enrichedAlt productId imageUrl description imageData updateResponse.body⟩,
          [Call.analyze imageUrl, Call.generate imageData, Call.persist productId description])

/-- The alternate handler after `JSON.parse` succeeded: a falsy `productId` or
`imageUrl` is answered with an explicit 400, and the flag key is `gen-description`. -/
def processJsonDataVariant (c : Collaborators) (jsonData : JsonData) :
    Option HttpResponse × List Call :=
  if !(truthy jsonData.productId) || !(truthy jsonData.imageUrl) then
    (some ⟨400, .errorOnly "productId or imageUrl is missing"⟩, [])
  else
    let productId := jsonData.productId.getD ""
    let imageUrl := jsonData.imageUrl.getD ""
    if genDescriptionValueOfVariant jsonData.attributes ≠ some (JsValue.str "true") then
      (some ⟨200, .skip "The option for automatic description generation is not enabled."
          productId imageUrl⟩, [])
    else
      (some (runEnrichmentVariant c productId imageUrl).1,
        (runEnrichmentVariant c productId imageUrl).2)

/-- The alternate self-contained `post` handler, which checks `request.body.message`
explicitly before reading `data`. -/
def postVariant (c : Collaborators) (parseJson : String → Except String JsonData)
    (decodeBase64 : String → String) (body : RequestBody) :
    Option HttpResponse × List Call :=
  match body.message with
  | none => (some ⟨400, .errorOnly "No Pub/Sub message received"⟩, [])
  | some pubSubMessage =>
    match decodeData decodeBase64 pubSubMessage.data with
    | none => (some ⟨400, .errorOnly "No data found in Pub/Sub message"⟩, [])
    | some decodedData =>
      if decodedData = "" then
        (some ⟨400, .errorOnly "No data found in Pub/Sub message"⟩, [])
      else
        match parseJson decodedData with
        | .error e => (some (catchErrorVariant (JsError.error e)), [])
        | .ok jsonData => processJsonDataVariant c jsonData

/-- A label annotation entry: the handler reads only `description`. -/
structure LabelInfo where
  description : String
deriving DecidableEq, Repr

/-- A localized object annotation entry: the handler reads only `name`. -/
structure ObjectInfo where
  name : String
deriving DecidableEq, Repr

/-- An RGB color of the Vision API; channel values are rationals, `Math.round`
is the round-half-up rounding of Mathlib. -/
structure ColorRGB where
  red : ℚ
  green : ℚ
  blue : ℚ
deriving DecidableEq, Repr

/-- A dominant-colors entry wrapping its RGB value, mirroring `color.color`. -/
structure ColorInfo where
  color : ColorRGB
deriving DecidableEq, Repr

/-- Mirrors `dominantColors`: an optional list of color entries. -/
structure DominantColors where
  colors : Option (List ColorInfo)
deriving DecidableEq, Repr

/-- Mirrors the field named `imagePropertiesAnnotation` in the source. -/
structure ImageProperties where
  dominantColors : Option DominantColors
deriving DecidableEq, Repr

/-- A text annotation entry: the handler reads only `description`. -/
structure TextInfo where
  description : String
deriving DecidableEq, Repr

/-- A web entity entry: the handler reads only `description`. -/
structure WebEntity where
  description : String
deriving DecidableEq, Repr

/-- Mirrors `webDetection`: an optional list of web entities. -/
structure WebDetection where
  webEntities : Option (List WebEntity)
deriving DecidableEq, Repr

/-- The annotate-image result, restricted to the fields `getImageData` reads.
`imageProps` stands for the source field `imagePropertiesAnnotation`. -/
structure VisionResult where
  labelAnnotations : Option (List LabelInfo)
  localizedObjectAnnotations : Option (List ObjectInfo)
  imageProps : Option ImageProperties
  textAnnotations : Option (List TextInfo)
  webDetection : Option WebDetection
deriving DecidableEq, Repr

/-- JS `s || fallback` on an optional string: `undefined` and `""` are falsy. -/
def jsOrElse (s : Option String) (fallback : String) : String :=
  match s with
  | some v => if v = "" then fallback else v
  | none => fallback

/-- The JS `Math.round`: round half toward positive infinity, i.e. the floor of
`q + 1/2`, computed on the normalized numerator and denominator. -/
def jsRound (q : ℚ) : Int :=
  let r : ℚ := q + 1 / 2
  Int.fdiv r.num (Int.ofNat r.den)

/-- Renders one dominant color as the source does:
`Math.round(rgb.red), Math.round(rgb.green), Math.round(rgb.blue)`. -/
def formatColor (c : ColorInfo) : String :=
  toString (jsRound c.color.red) ++ ", " ++ toString (jsRound c.color.green) ++ ", " ++
    toString (jsRound c.color.blue)

/-- The optional chain `result.imagePropertiesAnnotation?.dominantColors?.colors`. -/
def dominantColorList (result : VisionResult) : Option (List ColorInfo) :=
  (result.imageProps.bind (fun p => p.dominantColors)).bind (fun d => d.colors)

/-- The transformation of `getImageData` on an annotate-image result (the network
call itself is external).  For the four string fields a JS `||` supplies the
fallback when the chain is `undefined` or the joined text is empty; for `colors`
the sliced-and-mapped array is always truthy, so the fallback only replaces an
`undefined` chain. -/
def getImageData (result : VisionResult) : ImageData :=
  { labels := jsOrElse (result.labelAnnotations.map (fun ls =>
      String.intercalate ", " (ls.map (fun l => l.description)))) "No labels detected"
    objects := jsOrElse (result.localizedObjectAnnotations.map (fun os =>
      String.intercalate ", " (os.map (fun o => o.name)))) "No objects detected"
    colors := ((dominantColorList result).map (fun cs => (cs.take 3).map formatColor)).getD
      ["No colors detected"]
    detectedText := jsOrElse ((result.textAnnotations.bind (fun ts => ts.head?)).map
      (fun t => t.description)) "No text detected"
    webEntities := jsOrElse ((result.webDetection.bind (fun w => w.webEntities)).map (fun es =>
      String.intercalate ", " ((es.take 5).map (fun e => e.description)))) "No web entities detected" }

/-- A product update action; the source only ever builds `setDescription` with a
localized-string map, modelled as locale-string pairs.  The other members of the
SDK union type are collapsed into `otherAction`. -/
inductive ProductUpdateAction where
  | setDescription (description : List (String × String))
  | otherAction (action : String)
deriving DecidableEq, Repr

/-- The body of a product update request: `{ version, actions }`. -/
structure ProductUpdateBody where
  version : Nat
  actions : List ProductUpdateAction
deriving DecidableEq, Repr

/-- One commercetools API call issued by the repository. -/
inductive CTCall where
  | getById (productId : String)
  | postById (productId : String) (body : ProductUpdateBody)
deriving DecidableEq, Repr

/-- The commercetools API root: fetching a product by id and posting an update. -/
structure CTApi where
  getProduct : String → Except JsError Product
  postProduct : String → ProductUpdateBody → Except JsError ClientResponse

/-- Mirrors `updateProductDescription` of the product repository: fetch the
product, read its `version`, then post a single `setDescription` action storing
the description under the `en` locale at that version.  The ordered list of API
calls issued is returned alongside the result. -/
def updateProductDescription (api : CTApi) (productId description : String) :
    Except JsError ClientResponse × List CTCall :=
  match api.getProduct productId with
  | .error e => (.error e, [CTCall.getById productId])
  | .ok currentProduct =>
    let currentVersion := currentProduct.version
    let updateActions : List ProductUpdateAction :=
      [ProductUpdateAction.setDescription [("en", description)]]
    (api.postProduct productId ⟨currentVersion, updateActions⟩,
      [CTCall.getById productId, CTCall.postById productId ⟨currentVersion, updateActions⟩])

/-- A decode, parse and gate configuration that reaches the enrichment pipeline
reduces the primary handler to the three-stage chain on the extracted
`productId` and `imageUrl`. -/
theorem post_reaches_pipeline
    (c : Collaborators) (parseJson : String → Except String JsonData)
    (decodeBase64 : String → String) (body : RequestBody) (msg : PubSubMessage)
    (d dd pid iu : String) (jd : JsonData)
    (hmsg : body.message = some msg) (hdata : msg.data = some d) (hd : d ≠ "")
    (hdec : jsTrim (decodeBase64 d) = dd) (hdd : dd ≠ "")
    (hparse : parseJson dd = Except.ok jd)
    (hpid : jd.productId = some pid) (hpid2 : pid ≠ "")
    (hiu : jd.imageUrl = some iu) (hiu2 : iu ≠ "")
    (hflag : genDescriptionValueOf jd.attributes = some (JsValue.str "true")) :
    post c parseJson decodeBase64 body =
      (some (runEnrichment c pid iu).1, (runEnrichment c pid iu).2) := by
  simp [post, decodeData, hmsg, hdata, hd, hdec, hdd, hparse, processJsonData,
    truthy, hpid, hiu, hpid2, hiu2, hflag]

/-- Claim C1: for a request whose event carries the enrichment flag with string
value true and non-empty productId and imageUrl, and whose collaborators all
succeed, the handler invokes Image Analysis exactly once with imageUrl, passes
its result unmodified to Text Generation, passes that result unmodified with
productId to Persistence, and returns 200 with productId, imageUrl, description,
productAnalysis and commerceToolsUpdate equal to the collaborator outputs (the
persistence payload being the body of the returned client response). -/
theorem c1_enrichment_success
    (c : Collaborators) (parseJson : String → Except String JsonData)
    (decodeBase64 : String → String) (body : RequestBody) (msg : PubSubMessage)
    (d dd pid iu desc : String) (jd : JsonData) (img : ImageData) (resp : ClientResponse)
    (hmsg : body.message = some msg) (hdata : msg.data = some d) (hd : d ≠ "")
    (hdec : jsTrim (decodeBase64 d) = dd) (hdd : dd ≠ "")
    (hparse : parseJson dd = Except.ok jd)
    (hpid : jd.productId = some pid) (hpid2 : pid ≠ "")
    (hiu : jd.imageUrl = some iu) (hiu2 : iu ≠ "")
    (hflag : genDescriptionValueOf jd.attributes = some (JsValue.str "true"))
    (hana : c.productAnalysis iu = Except.ok img)
    (hgen : c.generateProductDescription img = Except.ok desc)
    (hupd : c.updateProductDescription pid desc = Except.ok resp) :
    post c parseJson decodeBase64 body =
      (some ⟨200, ResponseBody.enriched pid iu desc img resp.body⟩,
       [Call.analyze iu, Call.generate img, Call.persist pid desc]) := by
  rw [post_reaches_pipeline c parseJson decodeBase64 body msg d dd pid iu jd
    hmsg hdata hd hdec hdd hparse hpid hpid2 hiu hiu2 hflag]
  simp [runEnrichment, hana, hgen, hupd]

/-- Witness for C1 at a concrete request with succeeding collaborators. -/
theorem c1_enrichment_success_witness :
    post
      ⟨fun _ => Except.ok ⟨"l", "o", ["c"], "t", "w"⟩,
       fun _ => Except.ok "desc0",
       fun _ _ => Except.ok ⟨⟨"p1", 2, []⟩⟩⟩
      (fun _ => Except.ok ⟨some "product", some "p1", some "u1",
        some [⟨"generateDescription", JsValue.str "true"⟩]⟩)
      (fun _ => "x") ⟨some ⟨some "ZZZ"⟩⟩ =
      (some ⟨200, ResponseBody.enriched "p1" "u1" "desc0" ⟨"l", "o", ["c"], "t", "w"⟩ ⟨"p1", 2, []⟩⟩,
       [Call.analyze "u1", Call.generate ⟨"l", "o", ["c"], "t", "w"⟩, Call.persist "p1" "desc0"]) :=
  c1_enrichment_success _ _ _ _ _ "ZZZ" "x" "p1" "u1" "desc0" _ _ _
    rfl rfl (by decide) (by decide) (by decide) rfl rfl (by decide) rfl (by decide)
    (by decide) rfl rfl rfl

/-- Claim C2 failing input: a parsed event with productId present but imageUrl
absent.  The primary handler skips the guarded block and sends no response at
all, modelled as `(none, [])`; the alternate handler answers 400 with an error
body.  Neither is the accepted success response the claim requires, though no
collaborator is invoked. -/
theorem c2_missing_image_url_no_response :
    post
      ⟨fun _ => Except.ok ⟨"l", "o", ["c"], "t", "w"⟩,
       fun _ => Except.ok "desc0",
       fun _ _ => Except.ok ⟨⟨"p1", 2, []⟩⟩⟩
      (fun _ => Except.ok ⟨none, some "p1", none, none⟩)
      (fun _ => "x") ⟨some ⟨some "ZZZ"⟩⟩ = (none, []) ∧
    postVariant
      ⟨fun _ => Except.ok ⟨"l", "o", ["c"], "t", "w"⟩,
       fun _ => Except.ok "desc0",
       fun _ _ => Except.ok ⟨⟨"p1", 2, []⟩⟩⟩
      (fun _ => Except.ok ⟨none, some "p1", none, none⟩)
      (fun _ => "x") ⟨some ⟨some "ZZZ"⟩⟩ =
      (some ⟨400, ResponseBody.errorOnly "productId or imageUrl is missing"⟩, []) := by
  constructor <;> decide

/-- Claim C3: for an event with truthy productId and imageUrl whose
enrichment-flag value is anything other than the exact string true (absent,
false as a string, boolean true, and so on), no collaborator is invoked and the
response is 200 with the skip body carrying the message, productId and imageUrl. -/
theorem c3_flag_not_true_skips
    (c : Collaborators) (parseJson : String → Except String JsonData)
    (decodeBase64 : String → String) (body : RequestBody) (msg : PubSubMessage)
    (d dd pid iu : String) (jd : JsonData) (v : Option JsValue)
    (hmsg : body.message = some msg) (hdata : msg.data = some d) (hd : d ≠ "")
    (hdec : jsTrim (decodeBase64 d) = dd) (hdd : dd ≠ "")
    (hparse : parseJson dd = Except.ok jd)
    (hpid : jd.productId = some pid) (hpid2 : pid ≠ "")
    (hiu : jd.imageUrl = some iu) (hiu2 : iu ≠ "")
    (hflag : genDescriptionValueOf jd.attributes = v)
    (hv : v ≠ some (JsValue.str "true")) :
    post c parseJson decodeBase64 body =
      (some ⟨200, ResponseBody.skip "❌ The option for automatic description generation is not enabled."
          pid iu⟩, []) := by
  simp [post, decodeData, hmsg, hdata, hd, hdec, hdd, hparse, processJsonData,
    truthy, hpid, hiu, hpid2, hiu2, hflag, hv]

/-- Witness for C3 at a concrete request whose flag value is the string false. -/
theorem c3_flag_not_true_skips_witness :
    post
      ⟨fun _ => Except.ok ⟨"l", "o", ["c"], "t", "w"⟩,
       fun _ => Except.ok "desc0",
       fun _ _ => Except.ok ⟨⟨"p1", 2, []⟩⟩⟩
      (fun _ => Except.ok ⟨some "product", some "p1", some "u1",
        some [⟨"generateDescription", JsValue.str "false"⟩]⟩)
      (fun _ => "x") ⟨some ⟨some "ZZZ"⟩⟩ =
      (some ⟨200, ResponseBody.skip "❌ The option for automatic description generation is not enabled."
          "p1" "u1"⟩, []) :=
  c3_flag_not_true_skips _ _ _ _ _ "ZZZ" "x" "p1" "u1" _ (some (JsValue.str "false"))
    rfl rfl (by decide) (by decide) (by decide) rfl rfl (by decide) rfl (by decide)
    (by decide) (by decide)

/-- Claim C4: for an envelope whose data field is absent, or is the empty string,
or decodes and trims to the empty string, the primary handler answers 400 with
the fixed missing-payload message and invokes no collaborator. -/
theorem c4_missing_payload
    (c : Collaborators) (parseJson : String → Except String JsonData)
    (decodeBase64 : String → String) (body : RequestBody) (msg : PubSubMessage)
    (hmsg : body.message = some msg)
    (hdata : msg.data = none ∨ ∃ d, msg.data = some d ∧ (d = "" ∨ jsTrim (decodeBase64 d) = "")) :
    post c parseJson decodeBase64 body =
      (some ⟨400, ResponseBody.errorOnly "❌ No data found in Pub/Sub message."⟩, []) := by
  rcases hdata with h | ⟨d, hd, h2⟩
  · simp [post, decodeData, hmsg, h]
  · rcases h2 with h2 | h2
    · simp [post, decodeData, hmsg, hd, h2]
    · by_cases hde : d = ""
      · simp [post, decodeData, hmsg, hd, hde]
      · simp [post, decodeData, hmsg, hd, hde, h2]

/-- Witness for C4 at a concrete envelope whose payload decodes to whitespace only. -/
theorem c4_missing_payload_witness :
    post
      ⟨fun _ => Except.ok ⟨"l", "o", ["c"], "t", "w"⟩,
       fun _ => Except.ok "desc0",
       fun _ _ => Except.ok ⟨⟨"p1", 2, []⟩⟩⟩
      (fun _ => Except.ok ⟨none, none, none, none⟩)
      (fun _ => "   ") ⟨some ⟨some "ICAg"⟩⟩ =
      (some ⟨400, ResponseBody.errorOnly "❌ No data found in Pub/Sub message."⟩, []) :=
  c4_missing_payload _ _ _ _ _ rfl (Or.inr ⟨"ICAg", rfl, Or.inr (by decide)⟩)

/-- Claim C5: for a payload decoding to non-empty text that fails JSON parsing,
the primary handler answers 500 (not 400) with the fixed internal-error message
and the parse error message as details, and invokes no collaborator. -/
theorem c5_malformed_payload
    (c : Collaborators) (parseJson : String → Except String JsonData)
    (decodeBase64 : String → String) (body : RequestBody) (msg : PubSubMessage)
    (d dd e : String)
    (hmsg : body.message = some msg) (hdata : msg.data = some d) (hd : d ≠ "")
    (hdec : jsTrim (decodeBase64 d) = dd) (hdd : dd ≠ "")
    (hparse : parseJson dd = Except.error e) :
    post c parseJson decodeBase64 body =
      (some ⟨500, ResponseBody.errorWithDetails
          "❌ Internal server error. Failed to process request." e⟩, []) := by
  simp [post, decodeData, hmsg, hdata, hd, hdec, hdd, hparse, catchError]

/-- Witness for C5 at a concrete non-JSON payload. -/
theorem c5_malformed_payload_witness :
    post
      ⟨fun _ => Except.ok ⟨"l", "o", ["c"], "t", "w"⟩,
       fun _ => Except.ok "desc0",
       fun _ _ => Except.ok ⟨⟨"p1", 2, []⟩⟩⟩
      (fun _ => Except.error "Unexpected token i in JSON at position 0")
      (fun _ => "invalid-json") ⟨some ⟨some "aW52YWxpZC1qc29u"⟩⟩ =
      (some ⟨500, ResponseBody.errorWithDetails
          "❌ Internal server error. Failed to process request."
          "Unexpected token i in JSON at position 0"⟩, []) :=
  c5_malformed_payload _ _ _ _ _ "aW52YWxpZC1qc29u" "invalid-json"
    "Unexpected token i in JSON at position 0"
    rfl rfl (by decide) (by decide) (by decide) rfl

/-- Claim C6: on an enriching request, a failing stage aborts all later stages;
the handler answers 500 with details equal to the message of the thrown error,
and when the thrown value is not an Error the 500 body carries only the generic
message.  The call trace shows exactly which stages ran. -/
theorem c6_stage_failure_aborts
    (c : Collaborators) (parseJson : String → Except String JsonData)
    (decodeBase64 : String → String) (body : RequestBody) (msg : PubSubMessage)
    (d dd pid iu : String) (jd : JsonData)
    (hmsg : body.message = some msg) (hdata : msg.data = some d) (hd : d ≠ "")
    (hdec : jsTrim (decodeBase64 d) = dd) (hdd : dd ≠ "")
    (hparse : parseJson dd = Except.ok jd)
    (hpid : jd.productId = some pid) (hpid2 : pid ≠ "")
    (hiu : jd.imageUrl = some iu) (hiu2 : iu ≠ "")
    (hflag : genDescriptionValueOf jd.attributes = some (JsValue.str "true")) :
    (∀ m, c.productAnalysis iu = Except.error (JsError.error m) →
       post c parseJson decodeBase64 body =
         (some ⟨500, ResponseBody.errorWithDetails
             "❌ Internal server error. Failed to process request." m⟩,
          [Call.analyze iu])) ∧
    (∀ img m, c.productAnalysis iu = Except.ok img →
       c.generateProductDescription img = Except.error (JsError.error m) →
       post c parseJson decodeBase64 body =
         (some ⟨500, ResponseBody.errorWithDetails
             "❌ Internal server error. Failed to process request." m⟩,
          [Call.analyze iu, Call.generate img])) ∧
    (∀ img desc m, c.productAnalysis iu = Except.ok img →
       c.generateProductDescription img = Except.ok desc →
       c.updateProductDescription pid desc = Except.error (JsError.error m) →
       post c parseJson decodeBase64 body =
         (some ⟨500, ResponseBody.errorWithDetails
             "❌ Internal server error. Failed to process request." m⟩,
          [Call.analyze iu, Call.generate img, Call.persist pid desc])) ∧
    (c.productAnalysis iu = Except.error JsError.nonError →
       post c parseJson decodeBase64 body =
         (some ⟨500, ResponseBody.errorOnly "❌ Unexpected error occurred."⟩,
          [Call.analyze iu])) := by
  have hp := post_reaches_pipeline c parseJson decodeBase64 body msg d dd pid iu jd
    hmsg hdata hd hdec hdd hparse hpid hpid2 hiu hiu2 hflag
  refine ⟨?_, ?_, ?_, ?_⟩
  · intro m hana
    rw [hp]; simp [runEnrichment, hana, catchError]
  · intro img m hana hgen
    rw [hp]; simp [runEnrichment, hana, hgen, catchError]
  · intro img desc m hana hgen hupd
    rw [hp]; simp [runEnrichment, hana, hgen, hupd, catchError]
  · intro hana
    rw [hp]; simp [runEnrichment, hana, catchError]

/-- Witness for C6: four concrete requests failing at each stage and with a
non-Error thrown value. -/
theorem c6_stage_failure_aborts_witness :
    (post
      ⟨fun _ => Except.error (JsError.error "Vision AI service failed"),
       fun _ => Except.ok "desc0",
       fun _ _ => Except.ok ⟨⟨"p1", 2, []⟩⟩⟩
      (fun _ => Except.ok ⟨some "product", some "p1", some "u1",
        some [⟨"generateDescription", JsValue.str "true"⟩]⟩)
      (fun _ => "x") ⟨some ⟨some "ZZZ"⟩⟩ =
      (some ⟨500, ResponseBody.errorWithDetails
          "❌ Internal server error. Failed to process request." "Vision AI service failed"⟩,
       [Call.analyze "u1"])) ∧
    (post
      ⟨fun _ => Except.ok ⟨"l", "o", ["c"], "t", "w"⟩,
       fun _ => Except.error (JsError.error "Generative AI service failed"),
       fun _ _ => Except.ok ⟨⟨"p1", 2, []⟩⟩⟩
      (fun _ => Except.ok ⟨some "product", some "p1", some "u1",
        some [⟨"generateDescription", JsValue.str "true"⟩]⟩)
      (fun _ => "x") ⟨some ⟨some "ZZZ"⟩⟩ =
      (some ⟨500, ResponseBody.errorWithDetails
          "❌ Internal server error. Failed to process request." "Generative AI service failed"⟩,
       [Call.analyze "u1", Call.generate ⟨"l", "o", ["c"], "t", "w"⟩])) ∧
    (post
      ⟨fun _ => Except.ok ⟨"l", "o", ["c"], "t", "w"⟩,
       fun _ => Except.ok "desc0",
       fun _ _ => Except.error (JsError.error "Commerce Tools service failed")⟩
      (fun _ => Except.ok ⟨some "product", some "p1", some "u1",
        some [⟨"generateDescription", JsValue.str "true"⟩]⟩)
      (fun _ => "x") ⟨some ⟨some "ZZZ"⟩⟩ =
      (some ⟨500, ResponseBody.errorWithDetails
          "❌ Internal server error. Failed to process request." "Commerce Tools service failed"⟩,
       [Call.analyze "u1", Call.generate ⟨"l", "o", ["c"], "t", "w"⟩,
        Call.persist "p1" "desc0"])) ∧
    (post
      ⟨fun _ => Except.error JsError.nonError,
       fun _ => Except.ok "desc0",
       fun _ _ => Except.ok ⟨⟨"p1", 2, []⟩⟩⟩
      (fun _ => Except.ok ⟨some "product", some "p1", some "u1",
        some [⟨"generateDescription", JsValue.str "true"⟩]⟩)
      (fun _ => "x") ⟨some ⟨some "ZZZ"⟩⟩ =
      (some ⟨500, ResponseBody.errorOnly "❌ Unexpected error occurred."⟩,
       [Call.analyze "u1"])) :=
  ⟨(c6_stage_failure_aborts _ _ _ _ _ "ZZZ" "x" "p1" "u1" _
      rfl rfl (by decide) (by decide) (by decide) rfl rfl (by decide) rfl (by decide)
      (by decide)).1 "Vision AI service failed" rfl,
   (c6_stage_failure_aborts _ _ _ _ _ "ZZZ" "x" "p1" "u1" _
      rfl rfl (by decide) (by decide) (by decide) rfl rfl (by decide) rfl (by decide)
      (by decide)).2.1 ⟨"l", "o", ["c"], "t", "w"⟩ "Generative AI service failed" rfl rfl,
   (c6_stage_failure_aborts _ _ _ _ _ "ZZZ" "x" "p1" "u1" _
      rfl rfl (by decide) (by decide) (by decide) rfl rfl (by decide) rfl (by decide)
      (by decide)).2.2.1 ⟨"l", "o", ["c"], "t", "w"⟩ "desc0" "Commerce Tools service failed"
      rfl rfl rfl,
   (c6_stage_failure_aborts _ _ _ _ _ "ZZZ" "x" "p1" "u1" _
      rfl rfl (by decide) (by decide) (by decide) rfl rfl (by decide) rfl (by decide)
      (by decide)).2.2.2 rfl⟩

/-- Claim C7: with duplicate attribute names the enrichment flag is taken from
the first matching entry in sequence order, the handler behaves as if only that
entry were present, and an absent attributes field behaves as the empty sequence. -/
theorem c7_first_attribute_match_wins
    (l1 l2 : List ProductAttribute) (e : ProductAttribute)
    (h1 : ∀ a ∈ l1, a.name ≠ "generateDescription")
    (he : e.name = "generateDescription") :
    genDescriptionValueOf (some (l1 ++ e :: l2)) = some e.value ∧
    (∀ (c : Collaborators) (jd : JsonData),
       processJsonData c { jd with attributes := some (l1 ++ e :: l2) } =
         processJsonData c { jd with attributes := some [e] }) ∧
    (∀ (c : Collaborators) (jd : JsonData),
       processJsonData c { jd with attributes := none } =
         processJsonData c { jd with attributes := some [] }) := by
  have hfind : (l1 ++ e :: l2).find? (fun attr => attr.name == "generateDescription") = some e := by
    induction l1 with
    | nil => simp [List.find?, he]
    | cons a l ih =>
      have ha : a.name ≠ "generateDescription" := h1 a (by simp)
      simp only [List.cons_append, List.find?]
      have : (a.name == "generateDescription") = false := by
        simp [ha]
      rw [this]
      exact ih (fun b hb => h1 b (by simp [hb]))
  refine ⟨?_, ?_, ?_⟩
  · simp [genDescriptionValueOf, hfind]
  · intro c jd
    simp [processJsonData, genDescriptionValueOf, hfind, List.find?, he]
  · intro c jd
    simp [processJsonData, genDescriptionValueOf]

/-- Witness for C7: among a non-matching entry and two entries named
generateDescription, the first match (value false) wins. -/
theorem c7_first_attribute_match_wins_witness :
    genDescriptionValueOf (some ([⟨"color", JsValue.str "red"⟩] ++
        ⟨"generateDescription", JsValue.str "false"⟩ ::
          [⟨"generateDescription", JsValue.str "true"⟩])) =
      some (JsValue.str "false") :=
  (c7_first_attribute_match_wins [⟨"color", JsValue.str "red"⟩]
    [⟨"generateDescription", JsValue.str "true"⟩]
    ⟨"generateDescription", JsValue.str "false"⟩ (by decide) rfl).1

/-- Claim C8 counterexample: when the dominant-colors detector returns an empty
list the code yields an empty colors list, because a JS array is always truthy,
so the fallback list is not substituted as the claim requires. -/
theorem c8_empty_colors_counterexample :
    (getImageData ⟨none, none, some ⟨some ⟨some []⟩⟩, none, none⟩).colors = [] ∧
    (getImageData ⟨none, none, some ⟨some ⟨some []⟩⟩, none, none⟩).colors ≠
      ["No colors detected"] := by
  constructor <;> decide

/-- Claim C8 as amended: fallbacks are substituted when the respective annotation
field is absent, and for the four string fields also when the joined text is
empty; an empty dominant-colors list instead yields an empty list.  The colors
list never exceeds 3 entries and the web-entities text is built from at most the
first 5 entries. -/
theorem c8_fallbacks_and_caps (r : VisionResult) :
    (r.labelAnnotations = none ∨ r.labelAnnotations = some [] →
       (getImageData r).labels = "No labels detected") ∧
    (r.localizedObjectAnnotations = none ∨ r.localizedObjectAnnotations = some [] →
       (getImageData r).objects = "No objects detected") ∧
    (r.textAnnotations = none ∨ r.textAnnotations = some [] →
       (getImageData r).detectedText = "No text detected") ∧
    ((r.webDetection.bind fun w => w.webEntities) = none ∨
        (r.webDetection.bind fun w => w.webEntities) = some [] →
       (getImageData r).webEntities = "No web entities detected") ∧
    (dominantColorList r = none → (getImageData r).colors = ["No colors detected"]) ∧
    (∀ cs, dominantColorList r = some cs →
       (getImageData r).colors = (cs.take 3).map formatColor) ∧
    ((getImageData r).colors.length ≤ 3) ∧
    (∀ es, (r.webDetection.bind fun w => w.webEntities) = some es →
       (getImageData r).webEntities =
         jsOrElse (some (String.intercalate ", " ((es.take 5).map fun e => e.description)))
           "No web entities detected") := by
  have hemp : String.intercalate ", " ([] : List String) = "" := by decide
  refine ⟨?_, ?_, ?_, ?_, ?_, ?_, ?_, ?_⟩
  · rintro (h | h) <;> simp [getImageData, jsOrElse, h, hemp]
  · rintro (h | h) <;> simp [getImageData, jsOrElse, h, hemp]
  · rintro (h | h) <;> simp [getImageData, jsOrElse, h, hemp]
  · rintro (h | h) <;> simp [getImageData, jsOrElse, h, hemp]
  · intro h; simp [getImageData, h]
  · intro cs h; simp [getImageData, h]
  · match h : dominantColorList r with
    | none => simp [getImageData, h]
    | some cs =>
      simp [getImageData, h]
  · intro es h; simp [getImageData, jsOrElse, h]

/-- Witness for C8 at concrete results with absent and empty annotation fields. -/
theorem c8_fallbacks_and_caps_witness :
    (getImageData ⟨none, some [], none, some [], some ⟨some []⟩⟩).labels =
      "No labels detected" ∧
    (getImageData ⟨none, some [], none, some [], some ⟨some []⟩⟩).objects =
      "No objects detected" ∧
    (getImageData ⟨none, some [], none, some [], some ⟨some []⟩⟩).detectedText =
      "No text detected" ∧
    (getImageData ⟨none, some [], none, some [], some ⟨some []⟩⟩).webEntities =
      "No web entities detected" ∧
    (getImageData ⟨none, some [], none, some [], some ⟨some []⟩⟩).colors =
      ["No colors detected"] ∧
    (getImageData ⟨none, some [], none, some [], some ⟨some []⟩⟩).colors.length ≤ 3 :=
  ⟨(c8_fallbacks_and_caps _).1 (Or.inl rfl),
   (c8_fallbacks_and_caps _).2.1 (Or.inr rfl),
   (c8_fallbacks_and_caps _).2.2.1 (Or.inr rfl),
   (c8_fallbacks_and_caps _).2.2.2.1 (Or.inr rfl),
   (c8_fallbacks_and_caps _).2.2.2.2.1 rfl,
   (c8_fallbacks_and_caps _).2.2.2.2.2.2.1⟩

/-- Claim C9: two parsed events differing only in the resource type id produce
the same response and the same collaborator calls, in both handler variants:
the resource-type comparison only guards logging. -/
theorem c9_resource_type_only_logged (c : Collaborators) (jd : JsonData)
    (t1 t2 : Option String) :
    processJsonData c { jd with resourceTypeId := t1 } =
      processJsonData c { jd with resourceTypeId := t2 } ∧
    processJsonDataVariant c { jd with resourceTypeId := t1 } =
      processJsonDataVariant c { jd with resourceTypeId := t2 } :=
  ⟨rfl, rfl⟩

/-- Claim C10: the persistence operation first fetches the product, then issues
exactly one update request whose body carries the fetched version and a single
setDescription action storing the description under exactly the en locale;
no other action is issued. -/
theorem c10_update_product_description
    (api : CTApi) (productId description : String) (currentProduct : Product)
    (hget : api.getProduct productId = Except.ok currentProduct) :
    updateProductDescription api productId description =
      (api.postProduct productId
         ⟨currentProduct.version, [ProductUpdateAction.setDescription [("en", description)]]⟩,
       [CTCall.getById productId,
        CTCall.postById productId
          ⟨currentProduct.version, [ProductUpdateAction.setDescription [("en", description)]]⟩]) := by
  simp [updateProductDescription, hget]

/-- Witness for C10 at a concrete API whose product is at version 7. -/
theorem c10_update_product_description_witness :
    updateProductDescription
      ⟨fun _ => Except.ok ⟨"p1", 7, []⟩,
       fun _ _ => Except.ok ⟨⟨"p1", 8, [("en", "A cotton shirt.")]⟩⟩⟩
      "p1" "A cotton shirt." =
      (Except.ok ⟨⟨"p1", 8, [("en", "A cotton shirt.")]⟩⟩,
       [CTCall.getById "p1",
        CTCall.postById "p1" ⟨7, [ProductUpdateAction.setDescription [("en", "A cotton shirt.")]]⟩]) := by
  rw [c10_update_product_description _ _ _ ⟨"p1", 7, []⟩ rfl]

end Image2Description
